import Mathlib

/-!
Shallow embedding of `django_geckoboard/decorators.py` (Python 2): the
Geckoboard authorization gate, the per-widget result normalizers, and the
dual-format (JSON / XML) serializer.  Python values flowing through the
serializer are modelled by the inductive `PyVal`; ordered dictionaries
become association lists, which preserves the insertion order the code
relies on.  Fallible Python code (KeyError, AttributeError, ValueError,
binascii.Error) is modelled with `Option` / `Except`.
-/

/-- Model of the Python values handled by the serializer: `None`, ints,
strings, lists/tuples, and (ordered) dicts as association lists. -/
inductive PyVal where
  | none
  | int (n : ℤ)
  | str (s : String)
  | list (l : List PyVal)
  | dict (entries : List (String × PyVal))

/-- Model of the Python test `v is None`. -/
def pyIsNone : PyVal → Bool
  | PyVal.none => true
  | _ => false

/-- Model of Python `str(v)` for the scalar values that can reach a text
node in `_build_str_xml`. -/
def pyStr : PyVal → String
  | PyVal.none => "None"
  | PyVal.int n => toString n
  | PyVal.str s => s
  | PyVal.list _ => "<list>"
  | PyVal.dict _ => "<dict>"

/- ---------------------------------------------------------------------
Authorization gate (`_is_api_key_correct`, lines 321-331, and the gate
part of `WidgetDecorator.__call__`, lines 39-48).
--------------------------------------------------------------------- -/

/-- Value of a base64 alphabet character, from `base64.b64decode`.  Not
repository code: model of the Python standard library routine. -/
def b64CharVal (c : Char) : Option ℕ :=
  if 'A' ≤ c ∧ c ≤ 'Z' then some (c.toNat - 65)
  else if 'a' ≤ c ∧ c ≤ 'z' then some (c.toNat - 71)
  else if '0' ≤ c ∧ c ≤ '9' then some (c.toNat + 4)
  else if c = '+' then some 62
  else if c = '/' then some 63
  else Option.none

/-- Regroup a list of 6-bit values into 8-bit bytes; the incomplete-group
cases follow base64 (2 sextets give 1 byte, 3 give 2). -/
def sextetsToBytes : List ℕ → List ℕ
  | a :: b :: c :: d :: rest =>
      (a * 4 + b / 16) :: ((b % 16) * 16 + c / 4) :: ((c % 4) * 64 + d) ::
        sextetsToBytes rest
  | [a, b] => [a * 4 + b / 16]
  | [a, b, c] => [a * 4 + b / 16, (b % 16) * 16 + c / 4]
  | _ => []

/-- Model of `base64.b64decode` (Python 2, where it maps `str` to `str`):
characters outside the alphabet are discarded, the remaining length must
be a multiple of 4, at most two trailing `=` padding characters are
allowed, and `Option.none` stands for the `binascii.Error` exception the
library raises on bad padding.  Not repository code: model of the Python
standard library routine; pathological inputs with interior padding are
also mapped to `Option.none`.  No claim depends on those corners. -/
def b64decode (s : String) : Option String :=
  let cs := s.toList.filter (fun c => (b64CharVal c).isSome ∨ c = '=')
  if cs.length % 4 ≠ 0 then Option.none
  else
    let padLen := (cs.reverse.takeWhile (fun c => c = '=')).length
    if 2 < padLen then Option.none
    else
      let data := cs.take (cs.length - padLen)
      if data.any (fun c => c = '=') then Option.none
      else some (String.mk ((sextetsToBytes (data.filterMap b64CharVal)).map Char.ofNat))

/-- Accumulator pass for `pySplitWS`: `acc` holds the characters of the
token in progress, reversed. -/
def pySplitWSAux : List Char → List Char → List String
  | [], acc => if acc.isEmpty then [] else [String.mk acc.reverse]
  | c :: cs, acc =>
    if c.isWhitespace then
      (if acc.isEmpty then [] else [String.mk acc.reverse]) ++ pySplitWSAux cs []
    else pySplitWSAux cs (c :: acc)

/-- Model of Python `s.split()`: split on whitespace runs, dropping empty
pieces. -/
def pySplitWS (s : String) : List String := pySplitWSAux s.toList []

/-- Model of `s.split(':')[0]`: the part of `s` before the first colon. -/
def userPart (s : String) : String :=
  String.mk (s.toList.takeWhile (fun c => c ≠ ':'))

/-- Model of Python `s.lower()` (the header scheme is ASCII). -/
def pyLower (s : String) : String := String.mk (s.toList.map Char.toLower)

/-- The request data the decorator reads: the `HTTP_AUTHORIZATION` header
(absent modelled as `Option.none`), and the `POST` and `GET` parameter
lists. -/
structure GRequest where
  httpAuthorization : Option String
  post : List (String × String)
  get : List (String × String)
deriving DecidableEq

/-- Embedding of `_is_api_key_correct` (decorators.py lines 321-331).
`apiKey` is the `GECKOBOARD_API_KEY` setting (`Option.none` when unset).
The result `Option.none` models the `binascii.Error` escaping from
`base64.b64decode` on undecodable input. -/
def _is_api_key_correct (apiKey : Option String) (request : GRequest) : Option Bool :=
  match apiKey with
  | Option.none => some true
  | some k =>
    match pySplitWS (request.httpAuthorization.getD "") with
    | [scheme, tok] =>
        if pyLower scheme = "basic" then
          (b64decode tok).map (fun d => userPart d = k)
        else some false
    | _ => some false

/- ---------------------------------------------------------------------
Serializer (`_render`, `_render_json`, `_render_xml` and the `_build_*`
helpers, decorators.py lines 334-379).
--------------------------------------------------------------------- -/

/-- First value stored under `key`, defaulting to the empty string: model
of `params.get(key, '')` on a request parameter dictionary.  (For
repeated keys Django keeps the last value; the claims never use repeated
keys.) -/
def lookupParam (params : List (String × String)) (key : String) : String :=
  (((params.find? (fun p => p.1 = key)).map (fun p => p.2)).getD "")

/-- Escape a character for a JSON string literal, as `json.dumps` does. -/
def jsonEscapeChar (c : Char) : String :=
  if c = '"' then "\\\""
  else if c = '\\' then "\\\\"
  else if c = '\n' then "\\n"
  else if c = '\r' then "\\r"
  else if c = '\t' then "\\t"
  else String.singleton c

/-- Quoted JSON string literal. -/
def jsonQuote (s : String) : String :=
  "\"" ++ String.join (s.toList.map jsonEscapeChar) ++ "\""

mutual
/-- Embedding of `json.dumps` as called by `_render_json` (line 344-345):
default separators, so `", "` between items and `": "` after keys. -/
def jsonDumps : PyVal → String
  | PyVal.none => "null"
  | PyVal.int n => toString n
  | PyVal.str s => jsonQuote s
  | PyVal.list l => "[" ++ String.intercalate ", " (jsonDumpsList l) ++ "]"
  | PyVal.dict l => "\x7b" ++ String.intercalate ", " (jsonDumpsDict l) ++ "\x7d"

/-- JSON fragments of the elements of a list. -/
def jsonDumpsList : List PyVal → List String
  | [] => []
  | v :: vs => jsonDumps v :: jsonDumpsList vs

/-- JSON fragments of the entries of an ordered dict. -/
def jsonDumpsDict : List (String × PyVal) → List String
  | [] => []
  | e :: vs => (jsonQuote e.1 ++ ": " ++ jsonDumps e.2) :: jsonDumpsDict vs
end

/-- Embedding of `_render_json` (line 344-345). -/
def _render_json (data : PyVal) : String := jsonDumps data

/-- XML document tree built by the `_build_*` helpers: elements with a tag
and ordered children, and text nodes. -/
inductive XmlNode where
  | elem (tag : String) (children : List XmlNode)
  | text (s : String)

mutual
/-- Embedding of `_build_xml` (lines 354-360): the list of nodes appended
to the parent for a given value.  A list contributes the nodes of each of
its items (`_build_list_xml`), a dict contributes element children per
entry (`_build_dict_xml`), and anything else contributes one text node
(`_build_str_xml`). -/
def _build_xml : PyVal → List XmlNode
  | PyVal.list l => buildListXml l
  | PyVal.dict d => buildDictXml d
  | v => [XmlNode.text (pyStr v)]

/-- Embedding of `_build_list_xml` (lines 365-367). -/
def buildListXml : List PyVal → List XmlNode
  | [] => []
  | v :: vs => _build_xml v ++ buildListXml vs

/-- Embedding of `_build_dict_xml` (lines 369-379): a sequence value under
a key produces one sibling element named after the key per sequence
entry; any other value produces a single element named after the key. -/
def buildDictXml : List (String × PyVal) → List XmlNode
  | [] => []
  | (tag, PyVal.list l) :: rest => buildSiblings tag l ++ buildDictXml rest
  | (tag, item) :: rest => XmlNode.elem tag (_build_xml item) :: buildDictXml rest

/-- The repeated sibling elements produced for the entries of a sequence
value in `_build_dict_xml`. -/
def buildSiblings (tag : String) : List PyVal → List XmlNode
  | [] => []
  | v :: vs => XmlNode.elem tag (_build_xml v) :: buildSiblings tag vs
end

/-- The document tree produced by `_render_xml` (lines 347-352): a single
`root` element wrapping the payload. -/
def renderXmlDoc (data : PyVal) : XmlNode := XmlNode.elem "root" (_build_xml data)

/-- Escape a character for XML character data, as minidom does. -/
def xmlEscapeChar (c : Char) : String :=
  if c = '&' then "&amp;"
  else if c = '<' then "&lt;"
  else if c = '>' then "&gt;"
  else String.singleton c

/-- Escape a string for XML character data. -/
def xmlEscape (s : String) : String := String.join (s.toList.map xmlEscapeChar)

mutual
/-- Serialization of an XML node in `minidom.Document.toxml` style:
childless elements render as self-closing tags, no inter-element
whitespace. -/
def xmlNodeToString : XmlNode → String
  | XmlNode.text s => xmlEscape s
  | XmlNode.elem tag [] => "<" ++ tag ++ "/>"
  | XmlNode.elem tag children => "<" ++ tag ++ ">" ++ xmlNodesToString children ++ "</" ++ tag ++ ">"

/-- Serialization of a list of XML nodes in order. -/
def xmlNodesToString : List XmlNode → String
  | [] => ""
  | n :: ns => xmlNodeToString n ++ xmlNodesToString ns
end

/-- Embedding of `_render_xml` (lines 347-352): the minidom XML
declaration followed by the serialized `root` element. -/
def _render_xml (data : PyVal) : String :=
  "<?xml version=\"1.0\" ?>" ++ xmlNodeToString (renderXmlDoc data)

/-- Embedding of `_render` (lines 334-342): the `format` parameter is
read from the form body, and, when that is empty or absent, from the
query string; the value `"2"` selects JSON and anything else XML. -/
def _render (request : GRequest) (data : PyVal) : String :=
  let format0 := lookupParam request.post "format"
  let format := if format0 = "" then lookupParam request.get "format" else format0
  if format = "2" then _render_json data else _render_xml data

/- ---------------------------------------------------------------------
The wrapped view (`WidgetDecorator.__call__`, lines 39-48).
--------------------------------------------------------------------- -/

/-- The responses the wrapped view can produce: a normal `HttpResponse`
with a body, an `HttpResponseForbidden` with a body, or an uncaught
Python exception (modelled with its message). -/
inductive GResponse where
  | ok (body : String)
  | forbidden (body : String)
  | exn (msg : String)
deriving DecidableEq

/-- The post-gate part of `_wrapped_view` (lines 43-46): call the view,
convert its result (`_convert_view_result`, which may raise), render, and
wrap in an `HttpResponse`. -/
def viewPipeline (convert : PyVal → Except String PyVal) (view : GRequest → PyVal)
    (request : GRequest) : GResponse :=
  match convert (view request) with
  | Except.ok data => GResponse.ok (_render request data)
  | Except.error e => GResponse.exn e

/-- Embedding of `_wrapped_view` (lines 40-46): on a failed key check
return `HttpResponseForbidden("Geckoboard API key incorrect")` without
touching the view, otherwise run the view pipeline.  A `binascii.Error`
escaping the key check propagates as an exception. -/
def _wrapped_view (apiKey : Option String) (convert : PyVal → Except String PyVal)
    (view : GRequest → PyVal) (request : GRequest) : GResponse :=
  match _is_api_key_correct apiKey request with
  | Option.none => GResponse.exn "binascii.Error"
  | some false => GResponse.forbidden "Geckoboard API key incorrect"
  | some true => viewPipeline convert view request

/- ---------------------------------------------------------------------
Number widget (`NumberWidgetDecorator._convert_view_result`, lines 66-69).
--------------------------------------------------------------------- -/

/-- Embedding of `NumberWidgetDecorator._convert_view_result` (lines
66-69): wrap a non-sequence result in a singleton list, then emit one
`value` dict per non-`None` element. -/
def numberConvert (result : PyVal) : PyVal :=
  let l : List PyVal :=
    match result with
    | PyVal.list l => l
    | v => [v]
  PyVal.dict [("item",
    PyVal.list ((l.filter (fun v => !pyIsNone v)).map (fun v => PyVal.dict [("value", v)])))]

/- ---------------------------------------------------------------------
Funnel widget (`FunnelWidgetDecorator._convert_view_result`, lines
256-267).  The view result is a dict with an `items` list of
(value, label) tuples and optional `type`, `percentage` and `sort`
entries; `items.sort(reverse=True)` sorts the caller's list in place by
Python tuple comparison (value first, label as tie-break).
--------------------------------------------------------------------- -/

/-- The funnel view result: the `items` entry (absent modelled as
`Option.none`; present as the list of (value, label) tuples), the
truthiness of the `sort` entry, and the optional `type` and `percentage`
strings. -/
structure FunnelResult where
  items : Option (List (ℚ × String))
  sortFlag : Bool
  type : Option String
  percentage : Option String
deriving DecidableEq

/-- The funnel payload: the `item` entries (each rendered as a dict with
`value` and `label`), and the `type` and `percentage` strings. -/
structure FunnelPayload where
  item : List (ℚ × String)
  type : String
  percentage : String
deriving DecidableEq

/-- Descending order used by `items.sort(reverse=True)` on (value, label)
tuples: `a` may come before `b` when `b ≤ a` in the lexicographic tuple
order.  The relation is total and transitive, and two tuples related both
ways are equal, so the sorted list is the unique descending arrangement —
the same list Python's stable sort produces. -/
def funnelGE (a b : ℚ × String) : Prop := b.1 < a.1 ∨ (b.1 = a.1 ∧ b.2 ≤ a.2)

instance : DecidableRel funnelGE := fun a b => by
  unfold funnelGE; infer_instance

instance : IsTotal (ℚ × String) funnelGE := by
  constructor
  intro a b
  rcases lt_trichotomy a.1 b.1 with h | h | h
  · exact Or.inr (Or.inl h)
  · rcases le_total a.2 b.2 with h2 | h2
    · exact Or.inr (Or.inr ⟨h, h2⟩)
    · exact Or.inl (Or.inr ⟨h.symm, h2⟩)
  · exact Or.inl (Or.inl h)

instance : IsTrans (ℚ × String) funnelGE := by
  constructor
  rintro a b c (h1 | ⟨e1, l1⟩) (h2 | ⟨e2, l2⟩)
  · exact Or.inl (h2.trans h1)
  · exact Or.inl (lt_of_eq_of_lt e2 h1)
  · exact Or.inl (lt_of_lt_of_eq h2 e1)
  · exact Or.inr ⟨e2.trans e1, l2.trans l1⟩

/-- Model of `items.sort(reverse=True)` on a list of (value, label)
tuples. -/
def pySortRev (l : List (ℚ × String)) : List (ℚ × String) :=
  List.insertionSort funnelGE l

/-- Embedding of `FunnelWidgetDecorator._convert_view_result` (lines
256-267).  The first component is the payload built in `data`; the second
is the state of the caller's result after the call, reflecting that
`items.sort(reverse=True)` mutates the caller's `items` list in place. -/
def funnelConvert (r : FunnelResult) : FunnelPayload × FunnelResult :=
  let items0 := r.items.getD []
  let items := if r.sortFlag then pySortRev items0 else items0
  (⟨items, r.type.getD "standard", r.percentage.getD "show"⟩,
   { r with items := r.items.map (fun l => if r.sortFlag then pySortRev l else l) })

/- ---------------------------------------------------------------------
Bullet graph widget (`BulletGraphWidgetDecorator._convert_view_result`,
lines 295-316).
--------------------------------------------------------------------- -/

/-- Model of the Python values in a bullet-graph view result: ints,
floats (modelled as rationals), strings, lists and ordered dicts. -/
inductive BVal where
  | int (n : ℤ)
  | float (q : ℚ)
  | str (s : String)
  | list (l : List BVal)
  | dict (entries : List (String × BVal))

/-- First value stored under `k` in an ordered dict. -/
def bGet (d : List (String × BVal)) (k : String) : Option BVal :=
  (d.find? (fun e => e.1 = k)).map (fun e => e.2)

/-- Removal of key `k`: the effect of `d.pop(k)` on the dict (keys are
unique in a Python dict, so filtering is the same as removing the one
entry). -/
def bRemove (d : List (String × BVal)) (k : String) : List (String × BVal) :=
  d.filter (fun e => e.1 ≠ k)

/-- Model of `d[k] = v`: replace the value in place when the key exists
(keeping its position in the insertion order), append otherwise. -/
def bSet (d : List (String × BVal)) (k : String) (v : BVal) : List (String × BVal) :=
  if (d.find? (fun e => e.1 = k)).isSome then
    d.map (fun e => if e.1 = k then (k, v) else e)
  else d ++ [(k, v)]

/-- Python truthiness of a `BVal`, for `not ....get("point", None)`. -/
def bTruthy : BVal → Bool
  | BVal.int n => n ≠ 0
  | BVal.float q => q ≠ 0
  | BVal.str s => s ≠ ""
  | BVal.list l => !l.isEmpty
  | BVal.dict d => !d.isEmpty

/-- Numeric value of a `BVal`, for the arithmetic on `min`/`max`. -/
def bToQ : BVal → Option ℚ
  | BVal.int n => some (n : ℚ)
  | BVal.float q => some q
  | _ => Option.none

/-- Model of Python `int(x)` on a number: truncation toward zero. -/
def truncQ (q : ℚ) : ℤ := if 0 ≤ q then ⌊q⌋ else ⌈q⌉

/-- Round half to even, the tie-breaking rule of C `%f` formatting used
by `float("%.*f" % (precision, x))`. -/
def rndHalfEven (q : ℚ) : ℤ :=
  if q - ⌊q⌋ = 1 / 2 then (if Even ⌊q⌋ then ⌊q⌋ else ⌊q⌋ + 1) else round q

/-- Model of `float("%.*f" % (p, x))` for positive `p`: rounding to `p`
decimal digits.  The Python call formats a binary double; over exactly
representable samples, such as the ones in the claims, the two agree. -/
def roundPrec (p : ℕ) (q : ℚ) : ℚ := (rndHalfEven (q * 10 ^ p) : ℚ) / 10 ^ p

/-- The generator expression `(step * x + min_pt for x in range(0, pts))`
of line 309, with `step = (max_pt - min_pt) / float(pts - 1)` from line
308. -/
def rawSamples (mn mx : ℚ) (pts : ℕ) : List ℚ :=
  (List.range pts).map (fun (x : ℕ) => (mx - mn) / ((pts : ℚ) - 1) * (x : ℚ) + mn)

/-- The precision pass of lines 310-313: precision 0 truncates each
sample to an int with `int(x)`; a positive precision formats with
`"%.*f"` and parses back, producing a float. -/
def applyPrec (precision : ℕ) (q : ℚ) : BVal :=
  if precision = 0 then BVal.int (truncQ q) else BVal.float (roundPrec precision q)

/-- The axis-point computation of lines 303-313: reject a point count
below 1 with `ValueError("Points must be at least 2")`, use `[min, max]`
for a point count of exactly 1, evenly spaced samples otherwise, and
apply the precision pass to every sample. -/
def computeAxisPoints (mn mx : ℚ) (pts : ℤ) (precision : ℕ) : Except String (List BVal) :=
  if pts < 1 then Except.error "ValueError: Points must be at least 2"
  else if pts = 1 then Except.ok ([mn, mx].map (applyPrec precision))
  else Except.ok ((rawSamples mn mx pts.toNat).map (applyPrec precision))

/-- Embedding of `BulletGraphWidgetDecorator._convert_view_result`
(lines 295-316).  Errors model the exceptions the Python code raises:
`KeyError` on missing keys, `AttributeError` when the axis is not a dict
(so `.get` does not exist — in particular when the axis is a plain
list), `TypeError` on non-numeric recipe values, and the explicit
`ValueError` for a point count below 1.  The function returns the final
state of `result`: the code mutates the caller's nested dicts in place
(`d.pop(...)` and the `point` assignment) and returns the same object.
The `points` and `precision` entries must be ints (a float `points`
makes `range` raise a `TypeError`); a negative `precision` (C `printf`
semantics, unused by the repository) is modelled by clamping to 0. -/
def bulletConvert (result : BVal) : Except String BVal :=
  match result with
  | BVal.dict rd =>
    match bGet rd "item" with
    | Option.none => Except.error "KeyError: item"
    | some (BVal.dict idict) =>
      match bGet idict "axis" with
      | Option.none => Except.error "KeyError: axis"
      | some (BVal.dict ad) =>
        if bTruthy ((bGet ad "point").getD (BVal.int 0)) then Except.ok result
        else
          match bGet ad "min", bGet ad "max" with
          | some mnv, some mxv =>
            match bToQ mnv, bToQ mxv with
            | some mn, some mx =>
              match (bGet ad "points").getD (BVal.int 1),
                    (bGet ad "precision").getD (BVal.int 0) with
              | BVal.int pts, BVal.int precision =>
                match computeAxisPoints mn mx pts precision.toNat with
                | Except.error e => Except.error e
                | Except.ok axisPts =>
                  let adLeft :=
                    bRemove (bRemove (bRemove (bRemove ad "min") "max") "points") "precision"
                  let adFinal := bSet adLeft "point" (BVal.list axisPts)
                  let idictFinal := bSet idict "axis" (BVal.dict adFinal)
                  Except.ok (BVal.dict (bSet rd "item" (BVal.dict idictFinal)))
              | _, _ => Except.error "TypeError: points and precision must be integers"
            | _, _ => Except.error "TypeError: min and max must be numbers"
          | _, _ => Except.error "KeyError: min or max"
      | some (BVal.list _) =>
          Except.error "AttributeError: list object has no attribute get"
      | some _ => Except.error "AttributeError: axis object has no attribute get"
    | some _ => Except.error "TypeError: item is not a dict"
  | _ => Except.error "TypeError: result is not a dict"

/- ---------------------------------------------------------------------
Claims.
--------------------------------------------------------------------- -/

/-- C1: for every configured credential `k`, every request whose
authorization header is absent, malformed (not exactly two
whitespace-separated tokens), not of the Basic scheme, or whose
base64-decoded user portion (before the first colon) is not exactly `k`,
receives the fixed 403 response with the fixed plain-text body
`Geckoboard API key incorrect`, and the wrapped view function is never
invoked: the response is the same for every view function, which
therefore cannot have contributed to it. -/
theorem c1_gate_rejects (k : String) (convert : PyVal → Except String PyVal)
    (view : GRequest → PyVal) (request : GRequest)
    (h : request.httpAuthorization = Option.none ∨
         (pySplitWS (request.httpAuthorization.getD "")).length ≠ 2 ∨
         (∃ s t, pySplitWS (request.httpAuthorization.getD "") = [s, t] ∧
            pyLower s ≠ "basic") ∨
         (∃ s t d, pySplitWS (request.httpAuthorization.getD "") = [s, t] ∧
            pyLower s = "basic" ∧ b64decode t = some d ∧ userPart d ≠ k)) :
    _wrapped_view (some k) convert view request =
      GResponse.forbidden "Geckoboard API key incorrect" := by
  have hgate : _is_api_key_correct (some k) request = some false := by
    unfold _is_api_key_correct
    rcases h with h | h | ⟨s, t, he, hs⟩ | ⟨s, t, d, he, hs, hd, hu⟩
    · rw [h]
      rfl
    · rcases hl : pySplitWS (request.httpAuthorization.getD "") with _ | ⟨s, _ | ⟨t, _ | _⟩⟩
      · rfl
      · rfl
      · exact absurd (by rw [hl]; rfl) h
      · rfl
    · rw [he]
      simp only [if_neg hs]
    · rw [he]
      simp only [if_pos hs, hd, Option.map_some]
      simp [hu]
  unfold _wrapped_view
  rw [hgate]

/-- Witness for C1 at concrete requests: an absent header, a Basic header
carrying the wrong key, and a non-Basic scheme all yield the fixed 403
response. -/
theorem c1_gate_rejects_witness :
    _wrapped_view (some "abc") (fun d => Except.ok d) (fun _ => PyVal.str "t")
        ⟨Option.none, [], []⟩ = GResponse.forbidden "Geckoboard API key incorrect" ∧
    _wrapped_view (some "abc") (fun d => Except.ok d) (fun _ => PyVal.str "t")
        ⟨some "basic ZGVmOnBw", [], []⟩ = GResponse.forbidden "Geckoboard API key incorrect" ∧
    _wrapped_view (some "abc") (fun d => Except.ok d) (fun _ => PyVal.str "t")
        ⟨some "Bearer YWJj", [], []⟩ = GResponse.forbidden "Geckoboard API key incorrect" :=
  ⟨c1_gate_rejects "abc" _ _ _ (Or.inl rfl),
   c1_gate_rejects "abc" _ _ _ (Or.inr (Or.inr (Or.inr
     ⟨"basic", "ZGVmOnBw", "def:pp", by decide, by decide, by decide, by decide⟩))),
   c1_gate_rejects "abc" _ _ _ (Or.inr (Or.inr (Or.inl
     ⟨"Bearer", "YWJj", by decide, by decide⟩)))⟩

/-- C2: for every configured credential `k` and every request carrying a
correctly encoded Basic authorization header whose decoded user portion
equals `k`, the gate runs the wrapped view pipeline (the view is invoked
and its converted, rendered result becomes the response); and when no
credential is configured the gate permits every request regardless of
its authorization header.  The last conjunct makes the flow-through
explicit for the base widget's identity conversion: the response body is
exactly the rendered view result. -/
theorem c2_gate_allows :
    (∀ (k : String) (convert : PyVal → Except String PyVal) (view : GRequest → PyVal)
       (request : GRequest) (s t d : String),
       pySplitWS (request.httpAuthorization.getD "") = [s, t] → pyLower s = "basic" →
       b64decode t = some d → userPart d = k →
       _wrapped_view (some k) convert view request = viewPipeline convert view request)
    ∧ (∀ (convert : PyVal → Except String PyVal) (view : GRequest → PyVal)
         (request : GRequest),
       _wrapped_view Option.none convert view request = viewPipeline convert view request)
    ∧ (∀ (view : GRequest → PyVal) (request : GRequest),
       viewPipeline (fun d => Except.ok d) view request =
         GResponse.ok (_render request (view request))) := by
  refine ⟨fun k convert view request s t d he hs hd hu => ?_, fun convert view request => rfl,
    fun view request => rfl⟩
  have hgate : _is_api_key_correct (some k) request = some true := by
    unfold _is_api_key_correct
    rw [he]
    simp only [if_pos hs, hd, Option.map_some]
    simp [hu]
  unfold _wrapped_view
  rw [hgate]

/-- Witness for C2: with key `abc` and the header `basic YWJj` (the
base64 encoding of `abc`, as in the repository's own test), the view
pipeline runs and the JSON-rendered view result is the response body. -/
theorem c2_gate_allows_witness :
    _wrapped_view (some "abc") (fun d => Except.ok d) (fun _ => PyVal.str "test")
        ⟨some "basic YWJj", [("format", "2")], []⟩ =
      viewPipeline (fun d => Except.ok d) (fun _ => PyVal.str "test")
        ⟨some "basic YWJj", [("format", "2")], []⟩ ∧
    viewPipeline (fun d => Except.ok d) (fun _ => PyVal.str "test")
        ⟨some "basic YWJj", [("format", "2")], []⟩ = GResponse.ok "\"test\"" :=
  ⟨c2_gate_allows.1 "abc" _ _ _ "basic" "YWJj" "abc" (by decide) rfl (by decide) rfl,
   rfl⟩

/-- C8: the number widget normalizer wraps a bare scalar `v` into the
payload with the single item list entry `value: v`, and maps a sequence
to one `value` entry per element in order with every `None` element
dropped entirely; in particular `[10, None, 9]` yields the two entries
`value: 10` and `value: 9`. -/
theorem c8_number_widget :
    (∀ v : PyVal, (∀ l, v ≠ PyVal.list l) → v ≠ PyVal.none →
       numberConvert v = PyVal.dict [("item", PyVal.list [PyVal.dict [("value", v)]])])
    ∧ (∀ l : List PyVal, numberConvert (PyVal.list l) =
       PyVal.dict [("item", PyVal.list ((l.filter (fun v => !pyIsNone v)).map
         (fun v => PyVal.dict [("value", v)])))])
    ∧ numberConvert (PyVal.list [PyVal.int 10, PyVal.none, PyVal.int 9]) =
       PyVal.dict [("item", PyVal.list [PyVal.dict [("value", PyVal.int 10)],
         PyVal.dict [("value", PyVal.int 9)]])] := by
  refine ⟨fun v hl hn => ?_, fun l => rfl, rfl⟩
  cases v with
  | none => exact absurd rfl hn
  | list l => exact absurd rfl (hl l)
  | int n => rfl
  | str s => rfl
  | dict d => rfl

/-- Witness for C8: the bare scalar `10` is auto-wrapped into a singleton
item list. -/
theorem c8_number_widget_witness :
    numberConvert (PyVal.int 10) =
      PyVal.dict [("item", PyVal.list [PyVal.dict [("value", PyVal.int 10)]])] :=
  c8_number_widget.1 (PyVal.int 10) (fun _ h => PyVal.noConfusion h)
    (fun h => PyVal.noConfusion h)

/-- C10: the serialization format is chosen by the `format` request
parameter, read from the form body first and the query string second;
the value `2` selects JSON output and any other value, an absent
parameter included, selects XML output.  In particular a non-empty
form-body value other than `2` selects XML even when the query string
says `2`. -/
theorem c10_format_selection :
    (∀ (request : GRequest) (data : PyVal),
       lookupParam request.post "format" = "2" →
       _render request data = _render_json data)
    ∧ (∀ (request : GRequest) (data : PyVal),
       lookupParam request.post "format" = "" → lookupParam request.get "format" = "2" →
       _render request data = _render_json data)
    ∧ (∀ (request : GRequest) (data : PyVal) (v : String),
       lookupParam request.post "format" = v → v ≠ "" → v ≠ "2" →
       _render request data = _render_xml data)
    ∧ (∀ (request : GRequest) (data : PyVal),
       lookupParam request.post "format" = "" → lookupParam request.get "format" ≠ "2" →
       _render request data = _render_xml data) := by
  refine ⟨fun request data hp => ?_, fun request data hp hg => ?_,
    fun request data v hp hne hne2 => ?_, fun request data hp hg => ?_⟩
  · simp [_render, hp]
  · simp [_render, hp, hg]
  · simp [_render, hp, hne, hne2]
  · simp [_render, hp, hg]

/-- Witness for C10 at concrete requests: form-body `2` and query-string
`2` (with empty form body) select JSON; form-body `1` overrides a
query-string `2` and selects XML; absent parameters select XML. -/
theorem c10_format_selection_witness :
    _render ⟨Option.none, [("format", "2")], []⟩ (PyVal.str "test") =
      _render_json (PyVal.str "test") ∧
    _render ⟨Option.none, [], [("format", "2")]⟩ (PyVal.str "test") =
      _render_json (PyVal.str "test") ∧
    _render ⟨Option.none, [("format", "1")], [("format", "2")]⟩ (PyVal.str "test") =
      _render_xml (PyVal.str "test") ∧
    _render ⟨Option.none, [], []⟩ (PyVal.str "test") = _render_xml (PyVal.str "test") ∧
    _render_json (PyVal.str "test") = "\"test\"" ∧
    _render_xml (PyVal.str "test") = "<?xml version=\"1.0\" ?><root>test</root>" :=
  ⟨c10_format_selection.1 _ _ rfl,
   c10_format_selection.2.1 _ _ rfl rfl,
   c10_format_selection.2.2.1 _ _ "1" rfl (by decide) (by decide),
   c10_format_selection.2.2.2 _ _ rfl (by decide),
   rfl, rfl⟩

/-- Helper for C9: the siblings built for a sequence value are exactly one
element named after the key per sequence entry, in order. -/
theorem buildSiblings_eq_map (tag : String) (l : List PyVal) :
    buildSiblings tag l = l.map (fun v => XmlNode.elem tag (_build_xml v)) := by
  induction l with
  | nil => rfl
  | cons v vs ih => simp only [buildSiblings, List.map_cons, ih]

/-- C9: markup serialization wraps every payload in a single `root`
element, and renders each dict key whose value is a sequence as repeated
sibling elements named after the key — one element per sequence entry,
never a single container element — with children in insertion order.
The concrete payload of the claim yields a root with exactly two sibling
`item` elements, each with its own children in insertion order. -/
theorem c9_xml_repeated_siblings :
    (∀ data : PyVal,
       _render_xml data = "<?xml version=\"1.0\" ?>" ++ xmlNodeToString (renderXmlDoc data) ∧
       renderXmlDoc data = XmlNode.elem "root" (_build_xml data))
    ∧ (∀ (tag : String) (l : List PyVal) (rest : List (String × PyVal)),
       buildDictXml ((tag, PyVal.list l) :: rest) =
         l.map (fun v => XmlNode.elem tag (_build_xml v)) ++ buildDictXml rest)
    ∧ renderXmlDoc (PyVal.dict [("item", PyVal.list
         [PyVal.dict [("value", PyVal.int 1), ("text", PyVal.str "x")],
          PyVal.dict [("value", PyVal.int 2)]])]) =
       XmlNode.elem "root"
         [XmlNode.elem "item"
            [XmlNode.elem "value" [XmlNode.text "1"],
             XmlNode.elem "text" [XmlNode.text "x"]],
          XmlNode.elem "item"
            [XmlNode.elem "value" [XmlNode.text "2"]]]
    ∧ _render_xml (PyVal.dict [("item", PyVal.list
         [PyVal.dict [("value", PyVal.int 1), ("text", PyVal.str "x")],
          PyVal.dict [("value", PyVal.int 2)]])]) =
       "<?xml version=\"1.0\" ?><root><item><value>1</value><text>x</text></item><item><value>2</value></item></root>" := by
  refine ⟨fun data => ⟨rfl, rfl⟩, fun tag l rest => ?_, rfl, rfl⟩
  simp only [buildDictXml, buildSiblings_eq_map]

/-- Python `int()` of an integer value is that integer. -/
theorem truncQ_intCast (m : ℤ) : truncQ (m : ℚ) = m := by
  unfold truncQ; split <;> simp

/-- C3: for every bullet-graph axis recipe, a point count below 1 makes
the normalizer raise the `ValueError`; a point count of exactly 1 yields
the two-sample axis `[min, max]` (with the precision pass applied — in
particular exactly `[min, max]` for integer endpoints at precision 0);
and a point count `n ≥ 2` yields `n` evenly spaced samples from min to
max inclusive (sample `i` is `min + i·step` with constant step, the
first sample is `min`, the last is `max`), to which the precision pass
is applied.  The claim's example instances are proved below as
`c3_axis_generation_witness`. -/
theorem c3_axis_generation :
    (∀ (mn mx : ℚ) (precision : ℕ) (pts : ℤ), pts < 1 →
       computeAxisPoints mn mx pts precision =
         Except.error "ValueError: Points must be at least 2")
    ∧ (∀ (mn mx : ℚ) (precision : ℕ),
       computeAxisPoints mn mx 1 precision = Except.ok ([mn, mx].map (applyPrec precision)))
    ∧ (∀ (mn mx : ℤ), computeAxisPoints (mn : ℚ) (mx : ℚ) 1 0 =
        Except.ok [BVal.int mn, BVal.int mx])
    ∧ (∀ (mn mx : ℚ) (precision : ℕ) (n : ℕ), 2 ≤ n →
       computeAxisPoints mn mx (n : ℤ) precision =
         Except.ok ((rawSamples mn mx n).map (applyPrec precision))
       ∧ (rawSamples mn mx n).length = n
       ∧ (∀ i : ℕ, i < n → (rawSamples mn mx n)[i]? =
           some (mn + (i : ℚ) * ((mx - mn) / ((n : ℚ) - 1))))
       ∧ (rawSamples mn mx n)[0]? = some mn
       ∧ (rawSamples mn mx n)[n - 1]? = some mx) := by
  have hget : ∀ (mn mx : ℚ) (n : ℕ) (i : ℕ), i < n → (rawSamples mn mx n)[i]? =
      some (mn + (i : ℚ) * ((mx - mn) / ((n : ℚ) - 1))) := by
    intro mn mx n i hi
    unfold rawSamples
    simp only [List.getElem?_map, List.getElem?_range hi, Option.map_some',
      Option.some.injEq]
    ring
  refine ⟨fun mn mx precision pts hlt => ?_, fun mn mx precision => ?_, fun mn mx => ?_,
    fun mn mx precision n hn => ⟨?_, by simp [rawSamples], hget mn mx n, ?_, ?_⟩⟩
  · unfold computeAxisPoints
    rw [if_pos hlt]
  · unfold computeAxisPoints
    rw [if_neg (by decide), if_pos rfl]
  · unfold computeAxisPoints
    rw [if_neg (by decide), if_pos rfl]
    simp [applyPrec, truncQ_intCast]
  · unfold computeAxisPoints
    rw [if_neg (by omega), if_neg (by omega), Int.toNat_natCast]
  · rw [hget mn mx n 0 (by omega)]
    simp
  · rw [hget mn mx n (n - 1) (by omega)]
    have hc : ((n - 1 : ℕ) : ℚ) = (n : ℚ) - 1 := by
      have h1 : (1 : ℕ) ≤ n := by omega
      push_cast [h1]
      ring
    have hne : ((n : ℚ) - 1) ≠ 0 := by
      have h2 : (2 : ℚ) ≤ (n : ℚ) := by exact_mod_cast hn
      intro h0
      rw [sub_eq_zero] at h0
      rw [h0] at h2
      norm_num at h2
    rw [hc]
    field_simp

/-- Witness for C3 at the claim's example instances: the recipe
min 0, max 20, points 5, precision 0 yields `[0, 5, 10, 15, 20]`;
points 1 yields `[0, 20]`; and points 0 raises the validation error. -/
theorem c3_axis_generation_witness :
    computeAxisPoints 3 4 0 2 = Except.error "ValueError: Points must be at least 2" ∧
    computeAxisPoints 0 20 ((5 : ℕ) : ℤ) 0 =
      Except.ok ((rawSamples 0 20 5).map (applyPrec 0)) ∧
    computeAxisPoints 0 20 5 0 =
      Except.ok [BVal.int 0, BVal.int 5, BVal.int 10, BVal.int 15, BVal.int 20] ∧
    computeAxisPoints 0 20 1 0 = Except.ok [BVal.int 0, BVal.int 20] ∧
    computeAxisPoints 0 20 0 0 = Except.error "ValueError: Points must be at least 2" := by
  refine ⟨c3_axis_generation.1 3 4 2 0 (by decide),
    (c3_axis_generation.2.2.2 0 20 0 5 (by norm_num)).1, ?_, ?_, ?_⟩
  · have hr : rawSamples 0 20 ((5 : ℤ).toNat) = [0, 5, 10, 15, 20] := by
      rw [show (5 : ℤ).toNat = 5 from rfl]
      unfold rawSamples
      rw [show List.range 5 = [0, 1, 2, 3, 4] from rfl]
      simp only [List.map_cons, List.map_nil]
      norm_num
    unfold computeAxisPoints
    rw [if_neg (by norm_num), if_neg (by norm_num), hr]
    simp only [List.map_cons, List.map_nil]
    norm_num [applyPrec, truncQ]
  · unfold computeAxisPoints
    rw [if_neg (by norm_num), if_pos rfl]
    simp only [List.map_cons, List.map_nil]
    norm_num [applyPrec, truncQ]
  · unfold computeAxisPoints
    rw [if_pos (by norm_num)]

/-- C4 counterexample: the recipe min 0, max 15, points 3, precision 0
has the middle sample 15/2; the code truncates it with `int()` to 7,
while rounding it to zero decimal places gives 8 — both under round-half-up
(`round`) and under round-half-even (`rndHalfEven`) — so the axis list is
not the list of rounded samples. -/
theorem c4_precision_counterexample :
    computeAxisPoints 0 15 3 0 = Except.ok [BVal.int 0, BVal.int 7, BVal.int 15] ∧
    rawSamples 0 15 3 = [0, 15 / 2, 15] ∧
    (rawSamples 0 15 3).map (fun q => BVal.int (round q)) =
      [BVal.int 0, BVal.int 8, BVal.int 15] ∧
    (rawSamples 0 15 3).map (fun q => BVal.int (rndHalfEven q)) =
      [BVal.int 0, BVal.int 8, BVal.int 15] ∧
    computeAxisPoints 0 15 3 0 ≠
      Except.ok ((rawSamples 0 15 3).map (fun q => BVal.int (round q))) := by
  have hr : rawSamples 0 15 3 = [0, 15 / 2, 15] := by
    unfold rawSamples
    rw [show List.range 3 = [0, 1, 2] from rfl]
    simp only [List.map_cons, List.map_nil]
    norm_num
  have h1 : computeAxisPoints 0 15 3 0 = Except.ok [BVal.int 0, BVal.int 7, BVal.int 15] := by
    have hr3 : rawSamples 0 15 ((3 : ℤ).toNat) = [0, 15 / 2, 15] := by
      rw [show (3 : ℤ).toNat = 3 from rfl]
      exact hr
    unfold computeAxisPoints
    rw [if_neg (by norm_num), if_neg (by norm_num), hr3]
    simp only [List.map_cons, List.map_nil]
    norm_num [applyPrec, truncQ]
  have h3 : (rawSamples 0 15 3).map (fun q => BVal.int (round q)) =
      [BVal.int 0, BVal.int 8, BVal.int 15] := by
    rw [hr]
    simp only [List.map_cons, List.map_nil]
    norm_num [round_eq]
  have h4 : (rawSamples 0 15 3).map (fun q => BVal.int (rndHalfEven q)) =
      [BVal.int 0, BVal.int 8, BVal.int 15] := by
    rw [hr]
    simp only [List.map_cons, List.map_nil]
    norm_num [rndHalfEven, round_eq, Int.even_iff]
  refine ⟨h1, hr, h3, h4, ?_⟩
  rw [h1, h3]
  simp

/-- C4 as amended: for every bullet-graph axis recipe with `n ≥ 2`
points, precision 0 yields the integers obtained by truncating each
evenly spaced sample toward zero with `int()` (floor for nonnegative
samples, ceiling for negative ones) — not by rounding — and a positive
precision yields each sample rounded to that many decimal digits (the
half-even rounding of `%f` formatting, modelled over ℚ). -/
theorem c4_precision_amended :
    (∀ (mn mx : ℚ) (n : ℕ), 2 ≤ n →
       computeAxisPoints mn mx (n : ℤ) 0 =
         Except.ok ((rawSamples mn mx n).map (fun q => BVal.int (truncQ q))))
    ∧ (∀ (mn mx : ℚ) (n p : ℕ), 2 ≤ n → 0 < p →
       computeAxisPoints mn mx (n : ℤ) p =
         Except.ok ((rawSamples mn mx n).map (fun q => BVal.float (roundPrec p q))))
    ∧ (∀ q : ℚ, 0 ≤ q → truncQ q = ⌊q⌋)
    ∧ (∀ q : ℚ, q < 0 → truncQ q = ⌈q⌉) := by
  have hbase : ∀ (mn mx : ℚ) (p : ℕ) (n : ℕ), 2 ≤ n →
      computeAxisPoints mn mx (n : ℤ) p =
        Except.ok ((rawSamples mn mx n).map (applyPrec p)) := by
    intro mn mx p n hn
    unfold computeAxisPoints
    rw [if_neg (by omega), if_neg (by omega), Int.toNat_natCast]
  refine ⟨fun mn mx n hn => ?_, fun mn mx n p hn hp => ?_, fun q hq => ?_, fun q hq => ?_⟩
  · rw [hbase mn mx 0 n hn]
    have hfun : applyPrec 0 = fun q => BVal.int (truncQ q) := funext fun q => by
      simp [applyPrec]
    rw [hfun]
  · rw [hbase mn mx p n hn]
    have hfun : applyPrec p = fun q => BVal.float (roundPrec p q) := funext fun q => by
      simp [applyPrec, Nat.pos_iff_ne_zero.mp hp]
    rw [hfun]
  · unfold truncQ
    rw [if_pos hq]
  · unfold truncQ
    rw [if_neg (not_le.mpr hq)]

/-- Witness for C4 as amended, at the counterexample's recipe and at a
fractional recipe with precision 1: precision 0 truncates the middle
sample 15/2 to 7, and precision 1 keeps the middle sample 1/2 of the
recipe min 0, max 1, points 3 exactly. -/
theorem c4_precision_amended_witness :
    computeAxisPoints 0 15 ((3 : ℕ) : ℤ) 0 =
      Except.ok ((rawSamples 0 15 3).map (fun q => BVal.int (truncQ q))) ∧
    (rawSamples 0 15 3).map (fun q => BVal.int (truncQ q)) =
      [BVal.int 0, BVal.int 7, BVal.int 15] ∧
    computeAxisPoints 0 1 ((3 : ℕ) : ℤ) 1 =
      Except.ok ((rawSamples 0 1 3).map (fun q => BVal.float (roundPrec 1 q))) ∧
    (rawSamples 0 1 3).map (fun q => BVal.float (roundPrec 1 q)) =
      [BVal.float 0, BVal.float (1 / 2), BVal.float 1] ∧
    truncQ (15 / 2) = ⌊(15 / 2 : ℚ)⌋ := by
  have hr : rawSamples 0 15 3 = [0, 15 / 2, 15] := by
    unfold rawSamples
    rw [show List.range 3 = [0, 1, 2] from rfl]
    simp only [List.map_cons, List.map_nil]
    norm_num
  have hr2 : rawSamples 0 1 3 = [0, 1 / 2, 1] := by
    unfold rawSamples
    rw [show List.range 3 = [0, 1, 2] from rfl]
    simp only [List.map_cons, List.map_nil]
    norm_num
  refine ⟨c4_precision_amended.1 0 15 3 (by norm_num), ?_,
    c4_precision_amended.2.1 0 1 3 1 (by norm_num) (by norm_num), ?_,
    c4_precision_amended.2.2.1 (15 / 2) (by norm_num)⟩
  · rw [hr]
    simp only [List.map_cons, List.map_nil]
    norm_num [truncQ]
  · rw [hr2]
    simp only [List.map_cons, List.map_nil]
    norm_num [roundPrec, rndHalfEven, round_eq, Int.even_iff]

/-- C7: for every funnel input whose sort flag is truthy and whose items
are present, the output item list is the items sorted by value in
descending order (it is a permutation of the input items — labels
carried along — and pairwise descending in the value component); and for
every funnel input the `type` defaults to `standard` and `percentage`
defaults to `show` when those keys are absent.  The claim's example
`[(50, a), (100, b)]` is settled in the witness. -/
theorem c7_funnel_sort_and_defaults :
    (∀ (r : FunnelResult) (l : List (ℚ × String)), r.sortFlag = true → r.items = some l →
       (funnelConvert r).1.item = pySortRev l
       ∧ List.Perm (funnelConvert r).1.item l
       ∧ ((funnelConvert r).1.item).Pairwise (fun a b => b.1 ≤ a.1))
    ∧ (∀ r : FunnelResult, r.type = Option.none → (funnelConvert r).1.type = "standard")
    ∧ (∀ r : FunnelResult, r.percentage = Option.none →
       (funnelConvert r).1.percentage = "show") := by
  refine ⟨fun r l hs hi => ?_, fun r ht => ?_, fun r hp => ?_⟩
  · have hitem : (funnelConvert r).1.item = pySortRev l := by
      simp [funnelConvert, hs, hi]
    refine ⟨hitem, ?_, ?_⟩
    · rw [hitem]
      exact List.perm_insertionSort funnelGE l
    · rw [hitem]
      exact (List.sorted_insertionSort funnelGE l).imp fun h => by
        rcases h with h | ⟨h, _⟩
        · exact le_of_lt h
        · exact le_of_eq h
  · simp [funnelConvert, ht]
  · simp [funnelConvert, hp]

/-- Witness for C7 at the claim's example: sorting `[(50, a), (100, b)]`
yields the item order `[(100, b), (50, a)]` with labels carried along,
and the absent `type` and `percentage` keys default to `standard` and
`show`. -/
theorem c7_funnel_sort_and_defaults_witness :
    (funnelConvert ⟨some [((50 : ℚ), "a"), (100, "b")], true, Option.none,
        Option.none⟩).1.item = pySortRev [(50, "a"), (100, "b")] ∧
    pySortRev [((50 : ℚ), "a"), (100, "b")] = [(100, "b"), (50, "a")] ∧
    (funnelConvert ⟨some [((50 : ℚ), "a"), (100, "b")], true, Option.none,
        Option.none⟩).1.type = "standard" ∧
    (funnelConvert ⟨some [((50 : ℚ), "a"), (100, "b")], true, Option.none,
        Option.none⟩).1.percentage = "show" :=
  ⟨(c7_funnel_sort_and_defaults.1 _ [(50, "a"), (100, "b")] rfl rfl).1,
   by decide,
   c7_funnel_sort_and_defaults.2.1 _ rfl,
   c7_funnel_sort_and_defaults.2.2 _ rfl⟩

/-- C5: the claim says an axis given as an explicit ordered sequence of
numbers passes through unchanged, and the class's own docstring promises
`axis = list of numbers or a dictionary of min/max/points`; but on a
plain list axis the code evaluates `result["item"]["axis"].get("point",
None)` and a Python list has no `get` attribute, so the normalizer
raises an `AttributeError` instead of passing the structure through.
The second conjunct shows the neighbouring form the code does pass
through unchanged: an axis dictionary whose `point` entry is already a
non-empty list (the form exercised by the repository's own test). -/
theorem c5_explicit_axis_attribute_error :
    bulletConvert (BVal.dict [("orientation", BVal.str "vertical"),
      ("item", BVal.dict [("label", BVal.str "test label"),
        ("axis", BVal.list [BVal.int 0, BVal.int 10, BVal.int 20])])]) =
      Except.error "AttributeError: list object has no attribute get" ∧
    bulletConvert (BVal.dict [("orientation", BVal.str "vertical"),
      ("item", BVal.dict [("label", BVal.str "test label"),
        ("axis", BVal.dict [("point",
          BVal.list [BVal.int 1, BVal.int 5, BVal.int 10, BVal.int 15, BVal.int 20])])])]) =
      Except.ok (BVal.dict [("orientation", BVal.str "vertical"),
        ("item", BVal.dict [("label", BVal.str "test label"),
          ("axis", BVal.dict [("point",
            BVal.list [BVal.int 1, BVal.int 5, BVal.int 10, BVal.int 15, BVal.int 20])])])]) :=
  ⟨rfl, rfl⟩

/-- C6 counterexample: the normalizers are not pure in the frame sense.
The funnel normalizer with a truthy sort flag leaves the caller's items
list sorted, not as it was supplied (shown on the concrete input
`[(50, a), (100, b)]`), and the bullet-graph normalizer pops the recipe
keys out of the caller's axis mapping and writes the computed `point`
list into it — the returned (and caller-visible) structure no longer
equals the supplied one. -/
theorem c6_purity_counterexample :
    (funnelConvert ⟨some [((50 : ℚ), "a"), (100, "b")], true, Option.none,
        Option.none⟩).2 ≠
      ⟨some [((50 : ℚ), "a"), (100, "b")], true, Option.none, Option.none⟩ ∧
    (funnelConvert ⟨some [((50 : ℚ), "a"), (100, "b")], true, Option.none,
        Option.none⟩).2 =
      ⟨some [((100 : ℚ), "b"), (50, "a")], true, Option.none, Option.none⟩ ∧
    bulletConvert (BVal.dict [("item", BVal.dict [("axis", BVal.dict
        [("min", BVal.int 0), ("max", BVal.int 20), ("points", BVal.int 5)])])]) =
      Except.ok (BVal.dict [("item", BVal.dict [("axis", BVal.dict
        [("point", BVal.list [BVal.int 0, BVal.int 5, BVal.int 10, BVal.int 15,
          BVal.int 20])])])]) ∧
    (BVal.dict [("item", BVal.dict [("axis", BVal.dict
        [("point", BVal.list [BVal.int 0, BVal.int 5, BVal.int 10, BVal.int 15,
          BVal.int 20])])])]) ≠
      (BVal.dict [("item", BVal.dict [("axis", BVal.dict
        [("min", BVal.int 0), ("max", BVal.int 20), ("points", BVal.int 5)])])]) := by
  refine ⟨by decide, by decide, ?_, by simp⟩
  have hax : computeAxisPoints 0 20 5 0 =
      Except.ok [BVal.int 0, BVal.int 5, BVal.int 10, BVal.int 15, BVal.int 20] := by
    have hr : rawSamples 0 20 ((5 : ℤ).toNat) = [0, 5, 10, 15, 20] := by
      rw [show (5 : ℤ).toNat = 5 from rfl]
      unfold rawSamples
      rw [show List.range 5 = [0, 1, 2, 3, 4] from rfl]
      simp only [List.map_cons, List.map_nil]
      norm_num
    unfold computeAxisPoints
    rw [if_neg (by norm_num), if_neg (by norm_num), hr]
    simp only [List.map_cons, List.map_nil]
    norm_num [applyPrec, truncQ]
  simp [bulletConvert, bGet, bTruthy, bToQ, bRemove, bSet, hax]

/-- C6 as amended: every normalizer embedded here is a deterministic
function of its input, but two of them mutate the caller's structures in
place rather than being pure.  The funnel normalizer leaves its input
unchanged when the sort flag is falsy or the items key is absent, and
replaces the caller's items list with its descending sort when the sort
flag is truthy; the bullet-graph normalizer passes its input through
unchanged when the axis mapping already has a truthy `point` entry, and
otherwise (on a recipe axis, as in the counterexample) pops the recipe
keys and writes the computed point list into the caller's axis
mapping. -/
theorem c6_purity_amended :
    (∀ r : FunnelResult, r.sortFlag = false → (funnelConvert r).2 = r)
    ∧ (∀ r : FunnelResult, r.items = Option.none → (funnelConvert r).2 = r)
    ∧ (∀ (r : FunnelResult) (l : List (ℚ × String)), r.sortFlag = true →
       r.items = some l → (funnelConvert r).2 = { r with items := some (pySortRev l) })
    ∧ (∀ (rd : List (String × BVal)) (idict ad : List (String × BVal)),
       bGet rd "item" = some (BVal.dict idict) →
       bGet idict "axis" = some (BVal.dict ad) →
       bTruthy ((bGet ad "point").getD (BVal.int 0)) = true →
       bulletConvert (BVal.dict rd) = Except.ok (BVal.dict rd)) := by
  refine ⟨fun r hs => ?_, fun r hi => ?_, fun r l hs hi => ?_,
    fun rd idict ad h1 h2 h3 => ?_⟩
  · obtain ⟨items, sf, ty, pc⟩ := r
    subst hs
    simp [funnelConvert]
  · obtain ⟨items, sf, ty, pc⟩ := r
    subst hi
    simp [funnelConvert]
  · simp [funnelConvert, hs, hi]
  · simp only [bulletConvert, h1, h2, h3, if_true]

/-- Witness for C6 as amended: a funnel input without the sort flag is
left unchanged, the sorted counterexample input gets its items list
replaced by the descending sort, and a bullet-graph input whose axis
already has a point list passes through unchanged. -/
theorem c6_purity_amended_witness :
    (funnelConvert ⟨some [((50 : ℚ), "a"), (100, "b")], false, Option.none,
        Option.none⟩).2 =
      ⟨some [((50 : ℚ), "a"), (100, "b")], false, Option.none, Option.none⟩ ∧
    (funnelConvert ⟨some [((50 : ℚ), "a"), (100, "b")], true, Option.none,
        Option.none⟩).2 =
      ⟨some (pySortRev [((50 : ℚ), "a"), (100, "b")]), true, Option.none, Option.none⟩ ∧
    bulletConvert (BVal.dict [("item", BVal.dict [("axis", BVal.dict
        [("point", BVal.list [BVal.int 1, BVal.int 5])])])]) =
      Except.ok (BVal.dict [("item", BVal.dict [("axis", BVal.dict
        [("point", BVal.list [BVal.int 1, BVal.int 5])])])]) :=
  ⟨c6_purity_amended.1 _ rfl,
   c6_purity_amended.2.2.1 _ [(50, "a"), (100, "b")] rfl rfl,
   c6_purity_amended.2.2.2 [("item", BVal.dict [("axis", BVal.dict
       [("point", BVal.list [BVal.int 1, BVal.int 5])])])]
     [("axis", BVal.dict [("point", BVal.list [BVal.int 1, BVal.int 5])])]
     [("point", BVal.list [BVal.int 1, BVal.int 5])] rfl rfl rfl⟩
